import Mathlib

/-!
Shallow embedding of the stack-layout core of the typesetting engine
(`src/layout/mod.rs` and `src/layout/stacked.rs`), together with theorems
checking the specification's claims against it.

The geometry primitives (`Size`, `Size2D`, `SizeBox` from the `size` module)
and the action-list component are not part of the core sources; they are
modelled from the specification's contract for them, as noted on each
definition.
-/

set_option linter.unusedVariables false

namespace Typst

/-- Modelled from the spec: the scalar length unit of the geometry
primitives (`crate::size::Size`), "scalar and vector arithmetic with an
explicit length unit"; embedded as the rationals. -/
abbrev Size := ℚ

/-- Modelled from the spec: a 2D size/point (`crate::size::Size2D`). -/
structure Size2D where
  x : Size
  y : Size
deriving DecidableEq, Repr

/-- Modelled from the spec: a four-sided padding box (`crate::size::SizeBox`). -/
structure SizeBox where
  left : Size
  top : Size
  right : Size
  bottom : Size
deriving DecidableEq, Repr

namespace Size2D

def new (x y : Size) : Size2D := ⟨x, y⟩

/-- Modelled from the spec: a size with only an x component. -/
def with_x (v : Size) : Size2D := ⟨v, 0⟩

/-- Modelled from the spec: a size with only a y component. -/
def with_y (v : Size) : Size2D := ⟨0, v⟩

instance : Add Size2D := ⟨fun a b => ⟨a.x + b.x, a.y + b.y⟩⟩
instance : Sub Size2D := ⟨fun a b => ⟨a.x - b.x, a.y - b.y⟩⟩

theorem add_def (a b : Size2D) : a + b = ⟨a.x + b.x, a.y + b.y⟩ := rfl
theorem sub_def (a b : Size2D) : a - b = ⟨a.x - b.x, a.y - b.y⟩ := rfl

/-- Modelled from the spec: whether `other` fits into `self`, both
coordinates smaller or equal ("fits" is inclusive per the tie-break policy). -/
def fits (self other : Size2D) : Bool :=
  decide (other.x ≤ self.x) && decide (other.y ≤ self.y)

/-- Modelled from the spec: grow a size by a padding box on all four sides. -/
def padded (self : Size2D) (p : SizeBox) : Size2D :=
  ⟨self.x + p.left + p.right, self.y + p.top + p.bottom⟩

/-- Modelled from the spec: shrink a size by a padding box on all four
sides ("dimensions minus padding"). -/
def unpadded (self : Size2D) (p : SizeBox) : Size2D :=
  ⟨self.x - p.left - p.right, self.y - p.top - p.bottom⟩

end Size2D

/-- Where to put content (`Axis` in `layout/mod.rs`). -/
inductive Axis where
  | LeftToRight
  | RightToLeft
  | TopToBottom
  | BottomToTop
deriving DecidableEq, Repr

namespace Axis

/-- Whether this is a horizontal axis. -/
def is_horizontal : Axis → Bool
  | .LeftToRight | .RightToLeft => true
  | .TopToBottom | .BottomToTop => false

/-- Whether this axis points into the positive coordinate direction. -/
def is_positive : Axis → Bool
  | .LeftToRight | .TopToBottom => true
  | .RightToLeft | .BottomToTop => false

end Axis

/-- Where to align content (`Alignment` in `layout/mod.rs`). -/
inductive Alignment where
  | Origin
  | Center
  | End
deriving DecidableEq, Repr

/-- An axis with an alignment (`AlignedAxis` in `layout/mod.rs`). -/
structure AlignedAxis where
  axis : Axis
  alignment : Alignment
deriving DecidableEq, Repr

namespace AlignedAxis

/-- The position of the anchor specified by this axis on the given line. -/
def anchor (self : AlignedAxis) (line : Size) : Size :=
  match self.axis.is_positive, self.alignment with
  | true, .Origin | false, .End => 0
  | _, .Center => line / 2
  | true, .End | false, .Origin => line

end AlignedAxis

/-- The axes along which the content is laid out (`LayoutAxes`). -/
structure LayoutAxes where
  primary : AlignedAxis
  secondary : AlignedAxis
deriving DecidableEq, Repr

namespace LayoutAxes

/-- The position of the anchor specified by the two aligned axes
in the given generalized space. -/
def anchor (self : LayoutAxes) (area : Size2D) : Size2D :=
  Size2D.new (self.primary.anchor area.x) (self.secondary.anchor area.y)

end LayoutAxes

namespace Size2D

/-- Modelled from the spec: map physical (x, y) coordinates into
(primary, secondary) generalized coordinates — the bijective remapping of
§4.2, swapping the components exactly when the primary axis is vertical. -/
def generalized (self : Size2D) (axes : LayoutAxes) : Size2D :=
  match axes.primary.axis.is_horizontal with
  | true => self
  | false => ⟨self.y, self.x⟩

/-- Modelled from the spec: the inverse of `generalized` (the swap is an
involution). -/
def specialized (self : Size2D) (axes : LayoutAxes) : Size2D :=
  self.generalized axes

end Size2D

/-- Spacial layouting constraints (`LayoutSpace` in `layout/mod.rs`). -/
structure LayoutSpace where
  dimensions : Size2D
  padding : SizeBox
  shrink_to_fit : Bool
deriving DecidableEq, Repr

namespace LayoutSpace

/-- The actually usable area (dimensions minus padding). -/
def usable (self : LayoutSpace) : Size2D :=
  self.dimensions.unpadded self.padding

/-- The offset from the origin to the start of content; the source
constructs `Size2D::new(self.padding.left, self.padding.right)` (its own
doc comment promises `(padding.left, padding.top)`). -/
def start (self : LayoutSpace) : Size2D :=
  Size2D.new self.padding.left self.padding.right

/-- A layout space without padding and dimensions reduced by the padding. -/
def usable_space (self : LayoutSpace) (shrink_to_fit : Bool) : LayoutSpace :=
  { dimensions := self.usable
    padding := ⟨0, 0, 0, 0⟩
    shrink_to_fit }

end LayoutSpace

/-- A possibly stack-allocated vector of layout spaces (`LayoutSpaces`). -/
abbrev LayoutSpaces := List LayoutSpace

/-- A sequence of layouting actions inside a box (`Layout` in
`layout/mod.rs`). The action list is modelled from the spec: actions are
opaque to this core beyond having a position and a placed sub-layout
("placed via translation"), so they are (position, layout) pairs. -/
inductive Layout where
  | mk (dimensions : Size2D) (actions : List (Size2D × Layout)) (debug_render : Bool)

namespace Layout

def dimensions : Layout → Size2D
  | .mk d _ _ => d

def actions : Layout → List (Size2D × Layout)
  | .mk _ a _ => a

def debug_render : Layout → Bool
  | .mk _ _ b => b

end Layout

/-- Modelled from the spec: the growing list of positioned actions
(`LayoutActionList`); `add_layout` appends one positioned placement. -/
abbrev LayoutActionList := List (Size2D × Layout)

/-- Modelled from the spec: add a layout at a position to the action list. -/
def LayoutActionList.add_layout (self : LayoutActionList) (position : Size2D)
    (layout : Layout) : LayoutActionList :=
  self ++ [(position, layout)]

/-- A collection of layouts (`MultiLayout` in `layout/mod.rs`). -/
structure MultiLayout where
  layouts : List Layout

namespace MultiLayout

/-- Create an empty multi-layout. -/
def new : MultiLayout := ⟨[]⟩

/-- Add a sublayout. -/
def add (self : MultiLayout) (layout : Layout) : MultiLayout :=
  ⟨self.layouts ++ [layout]⟩

/-- The count of sublayouts. -/
def count (self : MultiLayout) : Nat :=
  self.layouts.length

/-- Whether this layout contains any sublayouts. -/
def is_empty (self : MultiLayout) : Bool :=
  self.layouts.isEmpty

end MultiLayout

/-- The error type for layouting (`LayoutError`); the font variants are
external collaborators and irrelevant to the stack layouter. -/
inductive LayoutError where
  | NotEnoughSpace (reason : String)
  | NoSuitableFont (c : Char)
deriving DecidableEq, Repr

/-- The result type for layouting. -/
abbrev LayoutResult (T : Type) := Except LayoutError T

/-- The context for stack layouting (`StackContext` in `layout/stacked.rs`). -/
structure StackContext where
  spaces : LayoutSpaces
  axes : LayoutAxes

/-- A default layout space; stands in for Rust's out-of-bounds indexing
panics, which are unreachable in states constructed through the API. -/
def defaultSpace : LayoutSpace :=
  { dimensions := ⟨0, 0⟩, padding := ⟨0, 0, 0, 0⟩, shrink_to_fit := true }

/-- Layouts boxes stack-like (`StackLayouter` in `layout/stacked.rs`). -/
structure StackLayouter where
  ctx : StackContext
  layouts : MultiLayout
  /-- Offset on secondary axis, anchor of the layout and the layout itself. -/
  boxes : List (Size × Size2D × Layout)
  usable : Size2D
  dimensions : Size2D
  active_space : Nat
  include_empty : Bool

/-- The initial cursor of a space (`start_dimensions` in `layout/stacked.rs`). -/
def start_dimensions (usable : Size2D) (axes : LayoutAxes) : Size2D :=
  Size2D.with_x (match axes.primary.alignment with
    | .Origin => 0
    | .Center | .End => usable.x)

namespace StackLayouter

/-- `StackLayouter::new`; Rust indexes `ctx.spaces[0]`, which panics when
the spaces list is empty — embedded as `none` in that case. -/
def new? (ctx : StackContext) : Option StackLayouter :=
  match ctx.spaces.head? with
  | none => none
  | some s0 =>
    let usable := s0.usable.generalized ctx.axes
    some
      { ctx
        layouts := MultiLayout.new
        boxes := []
        usable
        active_space := 0
        dimensions := start_dimensions usable ctx.axes
        include_empty := true }

/-- The combined size of the so-far included boxes with the other size
(`StackLayouter::size_with`). -/
def size_with (self : StackLayouter) (other : Size2D) : Size2D :=
  ⟨max self.dimensions.x other.x, self.dimensions.y + other.y⟩

/-- Finish the current layout (`StackLayouter::finish_layout`); the Rust
function returns a `LayoutResult` but never errors, so it is embedded as a
pure state transformer. -/
def finish_layout (self : StackLayouter) : StackLayouter :=
  let space := self.ctx.spaces.getD self.active_space defaultSpace
  let anchor := self.ctx.axes.anchor self.usable
  let factor : Size := if self.ctx.axes.secondary.axis.is_positive then 1 else -1
  let start := space.start
  let actions : LayoutActionList := self.boxes.map (fun b =>
    let general_position := anchor - b.2.1 + Size2D.with_y (b.1 * factor)
    let position := general_position.specialized self.ctx.axes + start
    (position, b.2.2))
  let finished : Layout :=
    Layout.mk
      (if space.shrink_to_fit then self.dimensions.padded space.padding
       else space.dimensions)
      actions
      true
  { self with boxes := [], layouts := self.layouts.add finished }

/-- Set up layouting in the next space (`StackLayouter::start_new_space`). -/
def start_new_space (self : StackLayouter) (include_empty : Bool) : StackLayouter :=
  let active_space := min (self.active_space + 1) (self.ctx.spaces.length - 1)
  let usable :=
    ((self.ctx.spaces.getD active_space defaultSpace).usable).generalized self.ctx.axes
  { self with
      active_space
      usable
      dimensions := start_dimensions usable self.ctx.axes
      include_empty }

/-- The space-search loop of `StackLayouter::add`, with explicit fuel
(`add` passes `spaces.length` fuel, which the loop can never exhaust when
the active space index is in range, since every iteration either returns or
strictly increases the index). -/
def fitLoop : Nat → StackLayouter → Size2D → LayoutResult StackLayouter
  | 0, _, _ =>
    Except.error (LayoutError.NotEnoughSpace "box is to large for stack spaces")
  | fuel + 1, self, size =>
    if self.usable.fits (self.size_with size) then
      Except.ok self
    else if self.ctx.spaces.length ≤ self.active_space + 1 then
      Except.error (LayoutError.NotEnoughSpace "box is to large for stack spaces")
    else
      fitLoop fuel ((self.finish_layout).start_new_space true) size

/-- Add a sublayout (`StackLayouter::add`). -/
def add (self : StackLayouter) (layout : Layout) : LayoutResult StackLayouter := do
  let size := layout.dimensions.generalized self.ctx.axes
  let s ← fitLoop self.ctx.spaces.length self size
  let ofset := s.dimensions.y
  let anchor := s.ctx.axes.anchor size
  Except.ok
    { s with
        boxes := s.boxes ++ [(ofset, anchor, layout)]
        dimensions := ⟨s.dimensions.x, s.dimensions.y + size.y⟩ }

/-- Add space after the last layout (`StackLayouter::add_space`). -/
def add_space (self : StackLayouter) (space : Size) : LayoutResult StackLayouter :=
  if self.usable.y < self.dimensions.y + space then
    Except.ok ((self.finish_layout).start_new_space false)
  else
    Except.ok { self with dimensions := ⟨self.dimensions.x, self.dimensions.y + space⟩ }

/-- Finish the layouting (`StackLayouter::finish`); returns the accumulated
multi-layout together with the state left behind by `mem::replace`. -/
def finish (self : StackLayouter) : MultiLayout × StackLayouter :=
  let s := if self.include_empty || !self.boxes.isEmpty then self.finish_layout else self
  (s.layouts, { s with layouts := MultiLayout.new })

/-- The remaining space for new layouts (`StackLayouter::remaining`). -/
def remaining (self : StackLayouter) : Size2D :=
  (Size2D.new self.usable.x (self.usable.y - self.dimensions.y)).specialized self.ctx.axes

end StackLayouter

/-! ### Concrete scenarios used by the claims -/

/-- Axes flowing left-to-right (primary) and top-to-bottom (secondary),
both origin-aligned; both axes positive-direction, primary horizontal. -/
def axesLR : LayoutAxes :=
  ⟨⟨Axis.LeftToRight, Alignment.Origin⟩, ⟨Axis.TopToBottom, Alignment.Origin⟩⟩

/-- A padding-free shrink-to-fit layout space with the given dimensions. -/
def plainSpace (w h : Size) : LayoutSpace :=
  { dimensions := ⟨w, h⟩, padding := ⟨0, 0, 0, 0⟩, shrink_to_fit := true }

/-- An action-free box layout with the given dimensions. -/
def box (w h : Size) : Layout :=
  Layout.mk ⟨w, h⟩ [] true

/-- The overflow-ordering scenario: two candidate spaces of usable
secondary extent 10 and 20 (cross extent 100), three boxes of secondary
extent 6 each. -/
def c1_ctx : StackContext :=
  ⟨[plainSpace 100 10, plainSpace 100 20], axesLR⟩

/-- Run of the overflow-ordering scenario: add the three boxes, finish. -/
def c1_result : Option (LayoutResult MultiLayout) :=
  (StackLayouter.new? c1_ctx).map (fun s => do
    let s ← s.add (box 1 6)
    let s ← s.add (box 2 6)
    let s ← s.add (box 3 6)
    pure (s.finish).1)

/-- **C1.** Greedy overflow ordering: with candidate spaces of usable
secondary extent 10 and 20 and three boxes of secondary extent 6 each, the
result is a `MultiLayout` with exactly two `Layout`s; the first holds only
box 1 (6 + 6 = 12 exceeds 10, so box 2 overflows), the second holds boxes
2 and 3 at secondary offsets 0 and 6. -/
theorem stack_overflow_ordering :
    c1_result = some (Except.ok ⟨[
      Layout.mk ⟨0, 6⟩ [(⟨0, 0⟩, box 1 6)] true,
      Layout.mk ⟨0, 12⟩ [(⟨0, 0⟩, box 2 6), (⟨0, 6⟩, box 3 6)] true]⟩) := by
  norm_num [c1_result, c1_ctx, plainSpace, box, axesLR, StackLayouter.new?,
    StackLayouter.add, StackLayouter.fitLoop, StackLayouter.size_with,
    StackLayouter.finish_layout, StackLayouter.start_new_space,
    StackLayouter.finish, start_dimensions, LayoutSpace.usable, LayoutSpace.start,
    Size2D.generalized, Size2D.specialized, Size2D.unpadded, Size2D.padded,
    Size2D.fits, Size2D.with_x, Size2D.with_y, Size2D.new, Size2D.add_def,
    Size2D.sub_def, LayoutAxes.anchor, AlignedAxis.anchor, Axis.is_positive,
    Axis.is_horizontal, MultiLayout.new, MultiLayout.add, Layout.dimensions,
    Layout.actions, defaultSpace, Except.bind, Bind.bind, pure, Except.pure,
    List.map]

/-- **C6.** `AlignedAxis.anchor` returns exactly 0 for (positive, Origin)
and (negative, End); `line / 2` for Center; `line` for (positive, End) and
(negative, Origin); and for nonnegative `line` the result lies in
`[0, line]`. -/
theorem anchor_cases (a : AlignedAxis) (line : Size) :
    ((a.axis.is_positive = true ∧ a.alignment = Alignment.Origin) ∨
      (a.axis.is_positive = false ∧ a.alignment = Alignment.End) →
        a.anchor line = 0) ∧
    (a.alignment = Alignment.Center → a.anchor line = line / 2) ∧
    ((a.axis.is_positive = true ∧ a.alignment = Alignment.End) ∨
      (a.axis.is_positive = false ∧ a.alignment = Alignment.Origin) →
        a.anchor line = line) ∧
    (0 ≤ line → 0 ≤ a.anchor line ∧ a.anchor line ≤ line) := by
  obtain ⟨ax, al⟩ := a
  cases ax <;> cases al <;>
    simp [AlignedAxis.anchor, Axis.is_positive] <;>
    intro h <;> constructor <;> linarith

/-- Witness for `anchor_cases`: on a positive axis with Center alignment
and line 10, the anchor is 10 / 2 = 5, which lies in [0, 10]. -/
theorem anchor_cases_witness :
    AlignedAxis.anchor ⟨Axis.LeftToRight, Alignment.Center⟩ 10 = 10 / 2 ∧
    0 ≤ AlignedAxis.anchor ⟨Axis.LeftToRight, Alignment.Center⟩ 10 ∧
    AlignedAxis.anchor ⟨Axis.LeftToRight, Alignment.Center⟩ 10 ≤ 10 := by
  have h := anchor_cases ⟨Axis.LeftToRight, Alignment.Center⟩ 10
  exact ⟨h.2.1 rfl, (h.2.2.2 (by norm_num)).1, (h.2.2.2 (by norm_num)).2⟩

/-- **C4.** `LayoutSpace::start` at the failing input
`padding = { left := 1, top := 2, right := 3, bottom := 4 }`: the code
returns `(padding.left, padding.right) = (1, 3)`, while its own doc comment
(and the claim) promise `(padding.left, padding.top) = (1, 2)`. -/
theorem start_returns_right_not_top :
    LayoutSpace.start ⟨⟨10, 10⟩, ⟨1, 2, 3, 4⟩, true⟩ = Size2D.new 1 3 ∧
    LayoutSpace.start ⟨⟨10, 10⟩, ⟨1, 2, 3, 4⟩, true⟩ ≠ Size2D.new 1 2 := by
  constructor
  · rfl
  · norm_num [LayoutSpace.start, Size2D.new]

/-- `finish_layout` leaves the context unchanged. -/
theorem finish_layout_ctx (s : StackLayouter) : (s.finish_layout).ctx = s.ctx := rfl

/-- `finish_layout` leaves the active space index unchanged. -/
theorem finish_layout_active (s : StackLayouter) :
    (s.finish_layout).active_space = s.active_space := rfl

/-- `finish_layout` leaves the usable size unchanged. -/
theorem finish_layout_usable (s : StackLayouter) : (s.finish_layout).usable = s.usable := rfl

/-- `finish_layout` leaves the cursor unchanged. -/
theorem finish_layout_dims (s : StackLayouter) :
    (s.finish_layout).dimensions = s.dimensions := rfl

/-- `start_new_space` leaves the context unchanged. -/
theorem start_new_space_ctx (s : StackLayouter) (b : Bool) :
    (s.start_new_space b).ctx = s.ctx := rfl

/-- `start_new_space` advances (and clamps) the active space index. -/
theorem start_new_space_active (s : StackLayouter) (b : Bool) :
    (s.start_new_space b).active_space =
      min (s.active_space + 1) (s.ctx.spaces.length - 1) := rfl

/-- `start_new_space` resets the usable size to the new active space's. -/
theorem start_new_space_usable (s : StackLayouter) (b : Bool) :
    (s.start_new_space b).usable =
      ((s.ctx.spaces.getD ((s.start_new_space b).active_space) defaultSpace).usable).generalized
        s.ctx.axes := rfl

/-- `start_new_space` resets the secondary cursor to zero. -/
theorem start_new_space_dims_y (s : StackLayouter) (b : Bool) :
    (s.start_new_space b).dimensions.y = 0 := rfl

/-- If the incoming generalized size fits no candidate space's usable
size, the space-search loop of `add` fails with `NotEnoughSpace`, for any
fuel, from any state whose active space index is in range, whose usable
size is the active space's, and whose secondary cursor is nonnegative. -/
theorem fitLoop_error (fuel : Nat) (s : StackLayouter) (size : Size2D)
    (hy : 0 ≤ s.dimensions.y)
    (husable : s.usable =
      ((s.ctx.spaces.getD s.active_space defaultSpace).usable).generalized s.ctx.axes)
    (hactive : s.active_space < s.ctx.spaces.length)
    (hnofit : ∀ sp ∈ s.ctx.spaces,
      (sp.usable.generalized s.ctx.axes).fits size = false) :
    StackLayouter.fitLoop fuel s size =
      Except.error (LayoutError.NotEnoughSpace "box is to large for stack spaces") := by
  induction fuel generalizing s with
  | zero => rfl
  | succ n ih =>
    have hmem : s.ctx.spaces.getD s.active_space defaultSpace ∈ s.ctx.spaces := by
      rw [List.getD_eq_getElem _ _ hactive]
      exact List.getElem_mem hactive
    have hninst := hnofit _ hmem
    rw [← husable] at hninst
    have hfit : s.usable.fits (s.size_with size) = false := by
      simp only [Size2D.fits, Bool.and_eq_false_iff, decide_eq_false_iff_not, not_le] at hninst ⊢
      rcases hninst with hx | hy'
      · exact Or.inl (lt_of_lt_of_le hx (le_max_right _ _))
      · exact Or.inr (by simp only [StackLayouter.size_with]; linarith)
    rw [StackLayouter.fitLoop, hfit]
    simp only [Bool.false_eq_true, if_false]
    by_cases hlast : s.ctx.spaces.length ≤ s.active_space + 1
    · rw [if_pos hlast]
    · rw [if_neg hlast]
      push_neg at hlast
      apply ih
      · rw [start_new_space_dims_y]
      · rw [start_new_space_usable, start_new_space_ctx, finish_layout_ctx]
      · simp only [start_new_space_active, start_new_space_ctx, finish_layout_active,
          finish_layout_ctx]
        omega
      · rw [start_new_space_ctx, finish_layout_ctx]
        exact hnofit

/-- **C3.** `StackLayouter::add` returns `LayoutError::NotEnoughSpace`
(rather than panicking or deferring) whenever the incoming box's
generalized size fits the usable size of no candidate space — including
with a single configured space; stated for every reachable state (active
index in range, usable size that of the active space, nonnegative cursor). -/
theorem add_not_enough_space (s : StackLayouter) (l : Layout)
    (hy : 0 ≤ s.dimensions.y)
    (husable : s.usable =
      ((s.ctx.spaces.getD s.active_space defaultSpace).usable).generalized s.ctx.axes)
    (hactive : s.active_space < s.ctx.spaces.length)
    (hnofit : ∀ sp ∈ s.ctx.spaces,
      (sp.usable.generalized s.ctx.axes).fits (l.dimensions.generalized s.ctx.axes) = false) :
    s.add l = Except.error (LayoutError.NotEnoughSpace "box is to large for stack spaces") := by
  simp only [StackLayouter.add]
  rw [fitLoop_error s.ctx.spaces.length s _ hy husable hactive hnofit]
  rfl

/-- Witness for `add_not_enough_space`: a single space of usable size
10 × 10 and a box of size 20 × 20. -/
theorem add_not_enough_space_witness :
    StackLayouter.add
      { ctx := ⟨[plainSpace 10 10], axesLR⟩
        layouts := MultiLayout.new
        boxes := []
        usable := ⟨10, 10⟩
        dimensions := ⟨0, 0⟩
        active_space := 0
        include_empty := true }
      (box 20 20) =
      Except.error (LayoutError.NotEnoughSpace "box is to large for stack spaces") := by
  apply add_not_enough_space
  · norm_num
  · norm_num [plainSpace, axesLR, LayoutSpace.usable, Size2D.unpadded,
      Size2D.generalized, Axis.is_horizontal, List.getD]
  · norm_num
  · intro sp hsp
    simp only [List.mem_singleton] at hsp
    subst hsp
    norm_num [plainSpace, axesLR, box, LayoutSpace.usable, Size2D.unpadded,
      Size2D.generalized, Size2D.fits, Axis.is_horizontal, Layout.dimensions]

/-- Axes flowing right-to-left (primary, negative direction) and
top-to-bottom (secondary), both origin-aligned. -/
def axesRL : LayoutAxes :=
  ⟨⟨Axis.RightToLeft, Alignment.Origin⟩, ⟨Axis.TopToBottom, Alignment.Origin⟩⟩

/-- The physical position that C2's wording predicts for a pending
(offset, per-box anchor) pair: the region anchor computed with `maxCross`
— the maximum observed cross extent — substituted for the generalized
width of the usable area. This follows the claim's words, for comparison
with the code's `finish_layout`, which instead anchors over the usable
area's own generalized size. -/
def c2_claimed_position (axes : LayoutAxes) (space : LayoutSpace) (usable : Size2D)
    (maxCross : Size) (offset : Size) (layout_anchor : Size2D) : Size2D :=
  let anchor := axes.anchor ⟨maxCross, usable.y⟩
  let factor : Size := if axes.secondary.axis.is_positive then 1 else -1
  (anchor - layout_anchor + Size2D.with_y (offset * factor)).specialized axes + space.start

/-- One right-to-left space of usable size 100 × 50, one box of size
3 × 5, then finish. -/
def c2_run : Option (LayoutResult MultiLayout) :=
  (StackLayouter.new? ⟨[plainSpace 100 50], axesRL⟩).map (fun s => do
    let s ← s.add (box 3 5)
    pure (s.finish).1)

/-- **C2 (counterexample).** On a right-to-left primary axis with Origin
alignment, a usable width of 100 and a single box of cross extent 3 with
per-box anchor (3, 0) at offset 0, the code places the box at (97, 0)
(anchor over the full usable width 100), while the claim's formula —
anchoring with the maximum observed cross extent 3 as the generalized width
— predicts (0, 0). -/
theorem finish_layout_anchor_counterexample :
    (match c2_run with
      | some (Except.ok ml) =>
          ml.layouts.map (fun (l : Layout) =>
            l.actions.map (fun (a : Size2D × Layout) => a.1))
      | _ => []) = [[⟨97, 0⟩]] ∧
    c2_claimed_position axesRL (plainSpace 100 50) ⟨100, 50⟩ 3 0 ⟨3, 0⟩ = ⟨0, 0⟩ ∧
    (⟨97, 0⟩ : Size2D) ≠ (⟨0, 0⟩ : Size2D) := by
  refine ⟨?_, ?_, by norm_num⟩
  · norm_num [c2_run, plainSpace, box, axesRL, StackLayouter.new?,
      StackLayouter.add, StackLayouter.fitLoop, StackLayouter.size_with,
      StackLayouter.finish_layout, StackLayouter.start_new_space,
      StackLayouter.finish, start_dimensions, LayoutSpace.usable, LayoutSpace.start,
      Size2D.generalized, Size2D.specialized, Size2D.unpadded, Size2D.padded,
      Size2D.fits, Size2D.with_x, Size2D.with_y, Size2D.new, Size2D.add_def,
      Size2D.sub_def, LayoutAxes.anchor, AlignedAxis.anchor, Axis.is_positive,
      Axis.is_horizontal, MultiLayout.new, MultiLayout.add, Layout.dimensions,
      Layout.actions, defaultSpace, Except.bind, Bind.bind, pure, Except.pure,
      List.map]
  · norm_num [c2_claimed_position, plainSpace, axesRL, LayoutSpace.start,
      Size2D.specialized, Size2D.generalized, Size2D.with_y, Size2D.new,
      Size2D.add_def, Size2D.sub_def, LayoutAxes.anchor, AlignedAxis.anchor,
      Axis.is_positive, Axis.is_horizontal]

/-- **C2 (amended).** In `finish_layout` every pending
(offset, anchor, layout) triple is placed at: the region's alignment
anchor computed over the whole usable area (its own generalized size, not
the maximum observed cross extent), minus the box's own per-box anchor,
plus the secondary offset multiplied by +1 if the secondary axis is
positive and −1 otherwise (contributing only to the secondary component),
specialized to physical coordinates, and translated by the region's start
offset. -/
theorem finish_layout_positions (s : StackLayouter) :
    (s.finish_layout).layouts.layouts = s.layouts.layouts ++
      [Layout.mk
        (if (s.ctx.spaces.getD s.active_space defaultSpace).shrink_to_fit then
          s.dimensions.padded (s.ctx.spaces.getD s.active_space defaultSpace).padding
        else (s.ctx.spaces.getD s.active_space defaultSpace).dimensions)
        (s.boxes.map (fun b =>
          ((s.ctx.axes.anchor s.usable - b.2.1 +
              Size2D.with_y (b.1 *
                (if s.ctx.axes.secondary.axis.is_positive then 1 else -1))).specialized
              s.ctx.axes +
            (s.ctx.spaces.getD s.active_space defaultSpace).start, b.2.2)))
        true] := rfl

/-- Accumulated cursor and declared dimensions of a run with one padded
shrink-to-fit space (padding left 1, top 2, right 3, bottom 4) and no
boxes. -/
def c5_run : Option (Size2D × List Size2D) :=
  (StackLayouter.new? ⟨[⟨⟨10, 10⟩, ⟨1, 2, 3, 4⟩, true⟩], axesLR⟩).map (fun s =>
    (s.dimensions, (s.finish).1.layouts.map Layout.dimensions))

/-- **C5 (counterexample).** With `shrink_to_fit` set and padding
(1, 2, 3, 4), the accumulated generalized size is (0, 0) but the finalized
box declares dimensions (4, 6) — the accumulated size re-padded by the
space's padding — so the declared dimensions do not equal the accumulated
generalized size. -/
theorem finish_layout_shrink_counterexample :
    c5_run = some (⟨0, 0⟩, [⟨4, 6⟩]) ∧
    (⟨4, 6⟩ : Size2D) ≠ (⟨0, 0⟩ : Size2D) := by
  refine ⟨?_, by norm_num⟩
  norm_num [c5_run, axesLR, StackLayouter.new?, StackLayouter.finish,
    StackLayouter.finish_layout, start_dimensions, LayoutSpace.usable,
    LayoutSpace.start, Size2D.generalized, Size2D.specialized, Size2D.unpadded,
    Size2D.padded, Size2D.with_x, Size2D.with_y, Size2D.new, LayoutAxes.anchor,
    AlignedAxis.anchor, Axis.is_positive, Axis.is_horizontal, MultiLayout.new,
    MultiLayout.add, Layout.dimensions, defaultSpace, List.map]

/-- **C5 (amended).** The box finalized by `finish_layout` declares as its
dimensions the accumulated generalized size *re-padded by the space's
padding* when `shrink_to_fit` is true for the active space, and the
space's full fixed dimensions when it is false. -/
theorem finish_layout_box_dimensions (s : StackLayouter) :
    ((s.finish_layout).layouts.layouts.getLast?).map Layout.dimensions =
      some (if (s.ctx.spaces.getD s.active_space defaultSpace).shrink_to_fit then
          s.dimensions.padded (s.ctx.spaces.getD s.active_space defaultSpace).padding
        else (s.ctx.spaces.getD s.active_space defaultSpace).dimensions) := by
  simp only [StackLayouter.finish_layout, MultiLayout.add, List.getLast?_concat]
  rfl

/-- **C7.** `add_space(space)`: when the cursor plus the gap strictly
exceeds the active space's usable secondary extent, the pending boxes are
finalized and a new space is started with `include_empty = false`
(not forced); otherwise — including when cursor plus gap exactly equals
the usable secondary extent — the secondary cursor advances by exactly the
gap. -/
theorem add_space_branches (s : StackLayouter) (space : Size) :
    (s.usable.y < s.dimensions.y + space →
      s.add_space space = Except.ok ((s.finish_layout).start_new_space false) ∧
      ((s.finish_layout).start_new_space false).include_empty = false) ∧
    (s.dimensions.y + space ≤ s.usable.y →
      s.add_space space =
        Except.ok { s with dimensions := ⟨s.dimensions.x, s.dimensions.y + space⟩ }) ∧
    (s.dimensions.y + space = s.usable.y →
      s.add_space space =
        Except.ok { s with dimensions := ⟨s.dimensions.x, s.dimensions.y + space⟩ }) := by
  refine ⟨fun h => ⟨?_, rfl⟩, fun h => ?_, fun h => ?_⟩
  · simp [StackLayouter.add_space, h]
  · simp [StackLayouter.add_space, not_lt.mpr h]
  · simp [StackLayouter.add_space, not_lt.mpr (le_of_eq h)]

/-- A layouter on its single 10 × 10 space with secondary cursor at 8. -/
def c7_s : StackLayouter :=
  { ctx := ⟨[plainSpace 10 10], axesLR⟩
    layouts := MultiLayout.new
    boxes := []
    usable := ⟨10, 10⟩
    dimensions := ⟨0, 8⟩
    active_space := 0
    include_empty := true }

/-- Witness for `add_space_branches`: with cursor 8 and usable extent 10,
a gap of 100 overflows (without forcing `include_empty`), while a gap of
2 — landing exactly on the usable extent — is accepted. -/
theorem add_space_branches_witness :
    c7_s.add_space 100 = Except.ok ((c7_s.finish_layout).start_new_space false) ∧
    ((c7_s.finish_layout).start_new_space false).include_empty = false ∧
    c7_s.add_space 2 =
      Except.ok { c7_s with dimensions := ⟨c7_s.dimensions.x, c7_s.dimensions.y + 2⟩ } := by
  have h1 := (add_space_branches c7_s 100).1 (by norm_num [c7_s])
  have h2 := (add_space_branches c7_s 2).2.2 (by norm_num [c7_s])
  exact ⟨h1.1, h1.2, h2⟩

/-- State after adding one 1 × 6 box to the two-space context and then a
gap of 100: the overflow path of `add_space` finalizes the pending box. -/
def c8_state : Option (LayoutResult StackLayouter) :=
  (StackLayouter.new? c1_ctx).map (fun s => do
    let s ← s.add (box 1 6)
    s.add_space 100)

/-- **C8 (counterexample).** A reachable state with no pending boxes and
`include_empty = false` (reached via `new`, `add`, then an overflowing
`add_space`) in which `finish` returns a `MultiLayout` with 1 sublayout,
not 0: the earlier-finalized layouts are still returned. -/
theorem finish_nonempty_counterexample :
    (c8_state.map (fun r => r.map (fun s =>
      (s.boxes.isEmpty, s.include_empty, (s.finish).1.count)))) =
      some (Except.ok (true, false, 1)) ∧ (1 : Nat) ≠ 0 := by
  refine ⟨?_, by norm_num⟩
  norm_num [c8_state, c1_ctx, plainSpace, box, axesLR, StackLayouter.new?,
    StackLayouter.add, StackLayouter.fitLoop, StackLayouter.size_with,
    StackLayouter.add_space, StackLayouter.finish_layout,
    StackLayouter.start_new_space, StackLayouter.finish, start_dimensions,
    LayoutSpace.usable, LayoutSpace.start, Size2D.generalized, Size2D.specialized,
    Size2D.unpadded, Size2D.padded, Size2D.fits, Size2D.with_x, Size2D.with_y,
    Size2D.new, Size2D.add_def, Size2D.sub_def, LayoutAxes.anchor,
    AlignedAxis.anchor, Axis.is_positive, Axis.is_horizontal, MultiLayout.new,
    MultiLayout.add, MultiLayout.count, Layout.dimensions, Layout.actions,
    defaultSpace, Except.bind, Bind.bind, pure, Except.pure, List.map,
    Except.map, Option.map, List.isEmpty]

/-- **C8 (amended).** `finish` returns an empty `MultiLayout` (zero
sublayouts) when no boxes are pending, `include_empty` is false, and no
layouts have been accumulated — e.g. immediately after a previous
`finish`. -/
theorem finish_empty_when_nothing_accumulated (s : StackLayouter)
    (hboxes : s.boxes = []) (hinc : s.include_empty = false)
    (hlay : s.layouts.layouts = []) :
    (s.finish).1.count = 0 := by
  simp [StackLayouter.finish, hboxes, hinc, MultiLayout.count, hlay]

/-- A pristine layouter with nothing pending, nothing accumulated, and
`include_empty` off. -/
def c8_clean : StackLayouter :=
  { ctx := ⟨[plainSpace 10 10], axesLR⟩
    layouts := MultiLayout.new
    boxes := []
    usable := ⟨10, 10⟩
    dimensions := ⟨0, 0⟩
    active_space := 0
    include_empty := false }

/-- Witness for `finish_empty_when_nothing_accumulated`. -/
theorem finish_empty_when_nothing_accumulated_witness :
    (c8_clean.finish).1.count = 0 :=
  finish_empty_when_nothing_accumulated c8_clean rfl rfl rfl

/-- **C9.** `StackLayouter::new` indexes `spaces[0]`, which is
out-of-bounds exactly when the context's spaces list is empty: the
embedding `new?` returns `none` (the panic) if and only if the spaces list
is empty, so a non-empty spaces list is an unstated precondition of the
constructor. -/
theorem new_none_iff_empty_spaces (ctx : StackContext) :
    StackLayouter.new? ctx = none ↔ ctx.spaces = [] := by
  obtain ⟨spaces, axes⟩ := ctx
  cases spaces <;> simp [StackLayouter.new?]

/-- Witness for `new_none_iff_empty_spaces`: the empty context panics. -/
theorem new_none_iff_empty_spaces_witness :
    StackLayouter.new? ⟨[], axesLR⟩ = none :=
  (new_none_iff_empty_spaces ⟨[], axesLR⟩).mpr rfl

/-- **C10.** `add_space` never errors: both branches return `Ok`; on
overflow the new cursor is 0 (the gap itself is discarded), and when the
active space is already the last one `start_new_space` clamps the index,
restarting the same space rather than failing with `NotEnoughSpace`. -/
theorem add_space_never_errors (s : StackLayouter) (space : Size) :
    (∃ s2, s.add_space space = Except.ok s2) ∧
    (s.usable.y < s.dimensions.y + space →
      s.add_space space = Except.ok ((s.finish_layout).start_new_space false) ∧
      ((s.finish_layout).start_new_space false).dimensions.y = 0 ∧
      (s.active_space = s.ctx.spaces.length - 1 →
        ((s.finish_layout).start_new_space false).active_space = s.active_space)) := by
  constructor
  · unfold StackLayouter.add_space
    split
    · exact ⟨_, rfl⟩
    · exact ⟨_, rfl⟩
  · intro h
    refine ⟨by simp [StackLayouter.add_space, h], start_new_space_dims_y _ _, fun ha => ?_⟩
    rw [start_new_space_active, finish_layout_active, finish_layout_ctx, ha]
    omega

/-- A layouter on the last (single) 10 × 10 space with cursor 8. -/
def c10_s : StackLayouter :=
  { ctx := ⟨[plainSpace 10 10], axesLR⟩
    layouts := MultiLayout.new
    boxes := []
    usable := ⟨10, 10⟩
    dimensions := ⟨0, 8⟩
    active_space := 0
    include_empty := true }

/-- Witness for `add_space_never_errors`: an overflowing gap on the last
space returns `Ok`, resets the cursor, and stays on the same space. -/
theorem add_space_never_errors_witness :
    (∃ s2, c10_s.add_space 100 = Except.ok s2) ∧
    ((c10_s.finish_layout).start_new_space false).dimensions.y = 0 ∧
    ((c10_s.finish_layout).start_new_space false).active_space = c10_s.active_space := by
  have h := add_space_never_errors c10_s 100
  have h2 := h.2 (by norm_num [c10_s])
  exact ⟨h.1, h2.2.1, h2.2.2 (by norm_num [c10_s])⟩

end Typst
